import Mathlib

/-!
Verification development for the website-builder pipeline repository.

The definitions below are a shallow embedding, in Lean, of the pipeline
code: the slug derivation (src/services/slugify.ts), the business-input
validator (schemas/business-input, Zod), the architect response
post-processing (src/agents/architect.ts), the storage uploader
(src/services/supabase.ts), the orchestrator (src/pipeline/orchestrator.ts)
and the HTTP handlers (the Fastify server).  External effects (LLM calls,
the storage service, the file system, clocks) are passed in explicitly as
data or as oracle functions, and JavaScript strings are modelled as Lean
strings (lists of Unicode scalar values; the inputs exercised by the
concrete theorems are ASCII, where the two models agree).
-/

set_option autoImplicit false

namespace WebsiteBuilder

/-! ### Character classes used by the JavaScript string operations -/

/-- Whitespace set recognised by the JavaScript regular-expression class
backslash-s and by String.prototype.trim: ASCII whitespace, NBSP, the
Unicode space separators, the line separators and the BOM. -/
def jsWhitespace (c : Char) : Bool :=
  c = ' ' || c = '\t' || c = '\n' || c = '\r' ||
  c = Char.ofNat 0x0b || c = Char.ofNat 0x0c ||
  c = Char.ofNat 0xa0 || c = Char.ofNat 0x1680 ||
  (Char.ofNat 0x2000 ≤ c && c ≤ Char.ofNat 0x200a) ||
  c = Char.ofNat 0x2028 || c = Char.ofNat 0x2029 ||
  c = Char.ofNat 0x202f || c = Char.ofNat 0x205f ||
  c = Char.ofNat 0x3000 || c = Char.ofNat 0xfeff

/-- Character class kept by the slugify filter step: lowercase ASCII
letters, ASCII digits and the hyphen (the regex class a-z0-9 plus hyphen). -/
def slugChar (c : Char) : Bool :=
  ('a' ≤ c && c ≤ 'z') || ('0' ≤ c && c ≤ '9') || c = '-'

/-! ### Slugify (src/services/slugify.ts, function slugify)

The source applies, in order: toLowerCase, trim, replace runs of
whitespace by a hyphen, drop every character outside a-z0-9 and hyphen,
collapse runs of hyphens, strip one leading and one trailing hyphen,
and truncate to 50 characters.  The Unicode lowercasing map of
JavaScript is kept abstract (a parameter of slugifyWith): every stated
property of the result holds for an arbitrary per-character lowering
map, and the concrete slugify instantiates it with Char.toLower, which
agrees with JavaScript on ASCII input. -/

/-- Drop the whitespace at both ends of a character list, as
String.prototype.trim does. -/
def trimChars (l : List Char) : List Char :=
  ((l.dropWhile jsWhitespace).reverse.dropWhile jsWhitespace).reverse

/-- Replace every maximal run of whitespace by a single hyphen
(the global replace of the regex backslash-s-plus by a hyphen).  The
Boolean argument records whether the previous character was whitespace. -/
def squashWsAux : Bool → List Char → List Char
  | _, [] => []
  | prevWs, c :: rest =>
    if jsWhitespace c then
      if prevWs then squashWsAux true rest
      else '-' :: squashWsAux true rest
    else c :: squashWsAux false rest

/-- Replace every maximal whitespace run in a character list by one hyphen. -/
def squashWs (l : List Char) : List Char := squashWsAux false l

/-- Collapse every run of consecutive hyphens to a single hyphen (the
global replace of one-or-more hyphens by a hyphen).  The Boolean argument
records whether the previous kept character was a hyphen. -/
def collapseHyphensAux : Bool → List Char → List Char
  | _, [] => []
  | prevH, c :: rest =>
    if c = '-' then
      if prevH then collapseHyphensAux true rest
      else '-' :: collapseHyphensAux true rest
    else c :: collapseHyphensAux false rest

/-- Collapse runs of hyphens in a character list. -/
def collapseHyphens (l : List Char) : List Char := collapseHyphensAux false l

/-- Drop one leading hyphen when present (the caret-hyphen alternative of
the edge-stripping regex). -/
def dropLeadingHyphen : List Char → List Char
  | [] => []
  | c :: rest => if c = '-' then rest else c :: rest

/-- Drop one trailing hyphen when present (the hyphen-dollar alternative
of the edge-stripping regex). -/
def dropTrailingHyphen : List Char → List Char
  | [] => []
  | [c] => if c = '-' then [] else [c]
  | c :: d :: rest => c :: dropTrailingHyphen (d :: rest)

/-- Slugify pipeline over an abstract per-character lowercasing map. -/
def slugifyWith (lower : Char → Char) (s : String) : String :=
  ⟨(dropTrailingHyphen (dropLeadingHyphen (collapseHyphens
      ((squashWs (trimChars (s.data.map lower))).filter slugChar)))).take 50⟩

/-- Embedding of the slugify function of src/services/slugify.ts. -/
def slugify (s : String) : String := slugifyWith Char.toLower s

/-! ### Decimal rendering of natural numbers

JavaScript renders the numbers this code interpolates into strings
(Date.now timestamps, array indices in Zod issue paths) in plain decimal;
the integers involved are below 2^53, so Nat with decimal rendering is a
faithful model. -/

/-- Decimal digits of a natural number, least significant first. -/
def digitsRevChars : Nat → List Char
  | 0 => []
  | n + 1 => Nat.digitChar ((n + 1) % 10) :: digitsRevChars ((n + 1) / 10)
decreasing_by exact Nat.div_lt_self (Nat.succ_pos n) (by omega)

/-- Decimal string of a natural number, as JavaScript string interpolation
renders an integer. -/
def decimalString (n : Nat) : String :=
  if n = 0 then "0" else ⟨(digitsRevChars n).reverse⟩

/-! ### Business-input validation (schemas/business-input, Zod)

BusinessInputSchema.safeParse is modelled as a function from a record of
optional fields (present or absent) to either the normalized record or
the list of Zod issues, each issue carrying the dotted field path and the
message configured in the schema.  The Zod URL and email format
validators are external library code and are kept abstract as Boolean
predicates; every concrete input exercised below leaves those fields
absent, where the predicates are irrelevant.  String lengths are counted
in Lean characters, which agrees with the UTF-16 count of JavaScript on
the ASCII inputs used here. -/

/-- Validation issue: dotted field path plus message, as produced from a
Zod issue by path.join and message. -/
structure FieldError where
  field : String
  message : String
deriving DecidableEq, Repr

/-- Photo object as submitted, before validation (PhotoSchema input). -/
structure RawPhoto where
  url : Option String := none
  alt : Option String := none
  caption : Option String := none
deriving DecidableEq, Repr

/-- Business record as submitted, before validation: each schema key is
present with a string value or absent.  Submitted values of the wrong
runtime type are outside this model. -/
structure RawBusinessInput where
  business_name : Option String := none
  address : Option String := none
  city : Option String := none
  state : Option String := none
  owner_name : Option String := none
  business_category : Option String := none
  description : Option String := none
  photos : Option (List RawPhoto) := none
  phone : Option String := none
  email : Option String := none
  website : Option String := none
  hours : Option (List (String × String)) := none
deriving DecidableEq, Repr

/-- Validated photo (PhotoSchema output). -/
structure Photo where
  url : String
  alt : Option String := none
  caption : Option String := none
deriving DecidableEq, Repr

/-- Validated business record (BusinessInput, the safeParse data). -/
structure BusinessInput where
  business_name : String
  address : String
  city : String
  state : String
  owner_name : Option String := none
  business_category : Option String := none
  description : String
  photos : List Photo := []
  phone : Option String := none
  email : Option String := none
  website : Option String := none
  hours : Option (List (String × String)) := none
deriving DecidableEq, Repr

/-- Issues for a required string field with a minimum and maximum length:
absent yields the Zod "Required" issue, present yields the configured
length messages when violated. -/
def requiredString (field : String) (v : Option String) (lo hi : Nat)
    (loMsg hiMsg : String) : List FieldError :=
  match v with
  | none => [⟨field, "Required"⟩]
  | some s =>
    (if s.length < lo then [⟨field, loMsg⟩] else []) ++
    (if hi < s.length then [⟨field, hiMsg⟩] else [])

/-- Issues for an optional string field with length bounds: absent is
accepted, present is length-checked. -/
def optionalString (field : String) (v : Option String) (lo hi : Nat)
    (loMsg hiMsg : String) : List FieldError :=
  match v with
  | none => []
  | some s =>
    (if s.length < lo then [⟨field, loMsg⟩] else []) ++
    (if hi < s.length then [⟨field, hiMsg⟩] else [])

/-- Character class of the body of the phone regex: ASCII digits, the
regex whitespace class, hyphen and parentheses. -/
def phoneBodyChar (c : Char) : Bool :=
  ('0' ≤ c && c ≤ '9') || jsWhitespace c || c = '-' || c = '(' || c = ')'

/-- Test of the phone regex of the schema: an optional leading plus sign
followed by one or more characters of the body class. -/
def phoneFormatOk (s : String) : Bool :=
  let body := match s.data with
    | '+' :: rest => rest
    | l => l
  !body.isEmpty && body.all phoneBodyChar

/-- Issues of one submitted photo at a given array index (PhotoSchema):
url is required and URL-checked, alt and caption are length-capped. -/
def photoIssues (urlValid : String → Bool) (idx : Nat) (p : RawPhoto) :
    List FieldError :=
  let base := "photos." ++ decimalString idx ++ "."
  (match p.url with
   | none => [⟨base ++ "url", "Required"⟩]
   | some u => if urlValid u then [] else [⟨base ++ "url", "Invalid photo URL"⟩]) ++
  (match p.alt with
   | none => []
   | some a =>
     if 200 < a.length then
       [⟨base ++ "alt", "String must contain at most 200 character(s)"⟩]
     else []) ++
  (match p.caption with
   | none => []
   | some c =>
     if 300 < c.length then
       [⟨base ++ "caption", "String must contain at most 300 character(s)"⟩]
     else [])

/-- Issues of the submitted photo array; an absent array defaults to
empty and yields no issue. -/
def photosIssues (urlValid : String → Bool) (photos : List RawPhoto) :
    List FieldError :=
  (photos.enum.map fun pi => photoIssues urlValid pi.1 pi.2).flatten

/-- Complete issue list of BusinessInputSchema.safeParse on a submitted
record, in schema key order.  Note that owner_name and business_category
are optional in the schema (their checks run only when the field is
present). -/
def businessInputIssues (urlValid emailValid : String → Bool)
    (raw : RawBusinessInput) : List FieldError :=
  requiredString "business_name" raw.business_name 2 100
    "Business name must be at least 2 characters"
    "Business name must be at most 100 characters" ++
  requiredString "address" raw.address 5 200
    "Address must be at least 5 characters"
    "Address must be at most 200 characters" ++
  requiredString "city" raw.city 2 50
    "City must be at least 2 characters"
    "City must be at most 50 characters" ++
  requiredString "state" raw.state 2 50
    "State must be at least 2 characters"
    "State must be at most 50 characters" ++
  optionalString "owner_name" raw.owner_name 2 100
    "Owner name must be at least 2 characters"
    "Owner name must be at most 100 characters" ++
  optionalString "business_category" raw.business_category 2 50
    "Business category must be at least 2 characters"
    "Business category must be at most 50 characters" ++
  requiredString "description" raw.description 20 2000
    "Description must be at least 20 characters"
    "Description must be at most 2000 characters" ++
  photosIssues urlValid (raw.photos.getD []) ++
  (match raw.phone with
   | none => []
   | some p =>
     if phoneFormatOk p then [] else [⟨"phone", "Invalid phone number format"⟩]) ++
  (match raw.email with
   | none => []
   | some e => if emailValid e then [] else [⟨"email", "Invalid email format"⟩]) ++
  (match raw.website with
   | none => []
   | some w => if urlValid w then [] else [⟨"website", "Invalid website URL"⟩])

/-- Embedding of BusinessInputSchema.safeParse: the normalized record
when there is no issue, the issue list otherwise.  The getD defaults in
the success branch are never taken: an absent required field always
contributes a "Required" issue. -/
def validateBusiness (urlValid emailValid : String → Bool)
    (raw : RawBusinessInput) : Except (List FieldError) BusinessInput :=
  let issues := businessInputIssues urlValid emailValid raw
  if issues.isEmpty then
    .ok {
      business_name := raw.business_name.getD ""
      address := raw.address.getD ""
      city := raw.city.getD ""
      state := raw.state.getD ""
      owner_name := raw.owner_name
      business_category := raw.business_category
      description := raw.description.getD ""
      photos := (raw.photos.getD []).map fun p => ⟨p.url.getD "", p.alt, p.caption⟩
      phone := raw.phone
      email := raw.email
      website := raw.website
      hours := raw.hours }
  else .error issues

/-- Rendering of an issue list as the orchestrator does for the
validation error message: path colon message, joined by semicolons. -/
def renderIssues (issues : List FieldError) : String :=
  String.intercalate "; " (issues.map fun e => e.field ++ ": " ++ e.message)

/-! ### Architect output (schemas/architect-output) -/

/-- Style guidelines block of an architect specification.  The Zod
schema constrains colors by a hex regex and tone and layout by enums;
those refinements are not exercised by any claim and the fields are kept
as optional strings. -/
structure SiteStyleGuidelines where
  primary_color : Option String := none
  secondary_color : Option String := none
  accent_color : Option String := none
  font_heading : Option String := none
  font_body : Option String := none
  tone : Option String := none
  layout : Option String := none
deriving DecidableEq, Repr

/-- Page section entry of an architect specification. -/
structure PageSection where
  section_id : String
  section_name : String
  copy_hints : Option String := none
  required : Bool := true
deriving DecidableEq, Repr

/-- Architect specification (ArchitectOutput): the instruction prompt
plus optional structured hints. -/
structure ArchitectOutput where
  website_generation_prompt : String
  site_style_guidelines : Option SiteStyleGuidelines := none
  page_sections : Option (List PageSection) := none
deriving DecidableEq, Repr

/-! ### Markdown-fence cleanup and architect response handling
(src/agents/architect.ts, runArchitect lines 77 to 95) -/

/-- Backtick character (written by code point to keep the source free of
literal backticks). -/
def backtickChar : Char := Char.ofNat 96

/-- Three backticks: the fence delimiter removed by the global replace. -/
def fenceChars : List Char := [backtickChar, backtickChar, backtickChar]

/-- Three backticks followed by the letters j s o n: the pattern of the
case-insensitive fence-json replace. -/
def fenceJsonChars : List Char := fenceChars ++ ['j', 's', 'o', 'n']

/-- Does the pattern occur at the front of the list?  With the Boolean
set, text characters are lowercased before comparison (the pattern is
given pre-lowercased), matching a case-insensitive ASCII regex. -/
def matchesAt (ci : Bool) : List Char → List Char → Bool
  | [], _ => true
  | _ :: _, [] => false
  | p :: ps, c :: cs => ((if ci then c.toLower else c) = p) && matchesAt ci ps cs

/-- Remove every (leftmost, non-overlapping) occurrence of a non-empty
pattern, as a global regex replace by the empty string.  The fuel
argument bounds the recursion by the input length; each step consumes at
least one character, so the fuel never runs out when started at the
input length. -/
def removeAllAux (ci : Bool) (pat : List Char) : Nat → List Char → List Char
  | 0, l => l
  | _ + 1, [] => []
  | fuel + 1, c :: rest =>
    if matchesAt ci pat (c :: rest) then
      removeAllAux ci pat fuel (List.drop (pat.length - 1) rest)
    else c :: removeAllAux ci pat fuel rest

/-- Remove every occurrence of a non-empty pattern from a character list. -/
def removeAll (ci : Bool) (pat : List Char) (l : List Char) : List Char :=
  removeAllAux ci pat l.length l

/-- Cleanup applied to the architect model response: remove fence-json
markers case-insensitively, remove remaining triple-backtick fences, then
trim. -/
def cleanArchitectText (s : String) : String :=
  ⟨trimChars (removeAll false fenceChars (removeAll true fenceJsonChars s.data))⟩

/-- Post-processing of the architect response text: clean, then attempt
JSON parsing (JSON.parse plus the unchecked cast, abstracted as an
oracle); on parse failure, wrap the cleaned text as the prompt field. -/
def architectFromResponse (jsonParse : String → Option ArchitectOutput)
    (raw : String) : ArchitectOutput :=
  let cleaned := cleanArchitectText raw
  match jsonParse cleaned with
  | some spec => spec
  | none => { website_generation_prompt := cleaned }

/-! ### Storage uploader (src/services/supabase.ts, uploadWebsite)

The storage bucket is modelled as an association list from path to
content.  An upload with upsert disabled fails when the path is already
present (the storage service rejects the write) and leaves the bucket
unchanged; otherwise it adds the entry.  The optional architect-prompt
side upload is omitted: the orchestrator never passes that argument.
The runId parameter is accepted, as in the source, but does not appear
in the storage path, which uses the timestamp. -/

/-- Upload outcome record (UploadResult interface of supabase.ts). -/
structure UploadResult where
  success : Bool
  publicUrl : Option String := none
  storagePath : Option String := none
  sizeBytes : Option Nat := none
  error : Option String := none
deriving DecidableEq, Repr

/-- Storage bucket state: path-to-content entries. -/
structure Bucket where
  entries : List (String × String) := []
deriving DecidableEq, Repr

/-- Does the bucket already hold an object at the given path? -/
def Bucket.hasPath (b : Bucket) (p : String) : Bool :=
  b.entries.any fun e => e.1 = p

/-- Storage path convention of uploadWebsite: slug, then timestamp, then
index.html, joined by slashes. -/
def storagePath (businessSlug : String) (timestamp : Nat) : String :=
  businessSlug ++ "/" ++ decimalString timestamp ++ "/index.html"

/-- Embedding of uploadWebsite: fails when the client is not configured;
otherwise writes the bytes at the slug-and-timestamp path with
overwriting disabled, returning the public URL and byte size on success
and the service error message (with the attempted path) on a duplicate. -/
def uploadWebsite (clientInit : Bool) (baseUrl : String) (bucket : Bucket)
    (businessSlug htmlContent runId : String) (timestamp : Nat) :
    UploadResult × Bucket :=
  if clientInit then
    let path := storagePath businessSlug timestamp
    let size := htmlContent.utf8ByteSize
    if bucket.hasPath path then
      ({ success := false, error := some "The resource already exists",
         storagePath := some path }, bucket)
    else
      ({ success := true,
         publicUrl := some (baseUrl ++ "/storage/v1/object/public/websites/" ++ path),
         storagePath := some path, sizeBytes := some size },
       ⟨(path, htmlContent) :: bucket.entries⟩)
  else
    ({ success := false,
       error := some "Supabase client not initialized. Check SUPABASE_URL and SUPABASE_SERVICE_ROLE_KEY." },
     bucket)

/-! ### Pipeline result (schemas/pipeline-result.ts) -/

/-- Pipeline stage names, as used for the error phase tags. -/
inductive Phase
  | validation
  | architect
  | builder
  | upload
deriving DecidableEq, Repr

/-- Result status enum of PipelineResultSchema; the third value (the
word between success and error in the schema enum) never occurs in the
orchestrator. -/
inductive RunStatus
  | success
  | error
  | partialDone
deriving DecidableEq, Repr

/-- Result record returned by the pipeline (PipelineResult). -/
structure PipelineResult where
  status : RunStatus
  run_id : String
  business_slug : Option String := none
  storage_path : Option String := none
  public_url : Option String := none
  html_size_bytes : Option Nat := none
  generated_at : Option String := none
  error_message : Option String := none
  error_phase : Option Phase := none
deriving DecidableEq, Repr

/-- Helper createSuccessResult of pipeline-result.ts; the generated_at
clock reading is passed in explicitly. -/
def createSuccessResult (run_id business_slug storage_path public_url : String)
    (html_size_bytes : Nat) (now : String) : PipelineResult :=
  { status := .success, run_id := run_id, business_slug := some business_slug,
    storage_path := some storage_path, public_url := some public_url,
    html_size_bytes := some html_size_bytes, generated_at := some now }

/-- Helper createErrorResult of pipeline-result.ts. -/
def createErrorResult (run_id error_message : String) (error_phase : Phase)
    (now : String) : PipelineResult :=
  { status := .error, run_id := run_id, error_message := some error_message,
    error_phase := some error_phase, generated_at := some now }

/-! ### Orchestrator (src/pipeline/orchestrator.ts, runPipeline)

The orchestrator is a single await chain; its external effects are
supplied through an environment record: the run identifier and clock
reading, the outcome of the architect model call (thrown message or raw
response text), the JSON-parse oracle, the outcome of the builder call,
the mock agents, the outcome of the optional local file write, the
bucket-existence probe (logged only, never branched on), and the outcome
of the storage upload (thrown message or returned UploadResult).

The two mock agents are supplied as unconstrained pure functions rather
than re-transcribed template literals: mockBuilder closes over the
current year through Date, so it is not a pure function of its argument,
and no claim constrains the literal template text — only the relation
between the builder output and the reported byte size.

Besides the result record, the embedding returns a run log: the list of
stages entered, in order, and whether the missing-DOCTYPE warning was
logged.  The source logs and discards the checkBucketExists Boolean and
attempts the upload regardless, which is why bucketExists does not
appear in the control flow below. -/

/-- Options of runPipeline.  outputDir carries only presence and the
outcome of the local write is part of the environment, since the path
itself never influences the result record. -/
structure PipelineOptions where
  useMock : Bool := false
  skipUpload : Bool := false
  outputDir : Option String := none
deriving DecidableEq, Repr

/-- Environment of one orchestrator run: identifiers, clock and the
outcomes of every external call, in oracle form. -/
structure PipelineEnv where
  runId : String
  now : String
  urlValid : String → Bool
  emailValid : String → Bool
  architectResponse : Except String String
  jsonParse : String → Option ArchitectOutput
  builderLive : ArchitectOutput → Except String String
  mockArchitectFn : BusinessInput → ArchitectOutput
  mockBuilderFn : ArchitectOutput → String
  localSaveError : Option String
  bucketExists : Bool
  uploadOutcome : String → String → String → Except String UploadResult

/-- Run log of one orchestrator run: stages entered, in order, and
whether the missing-DOCTYPE warning was printed. -/
structure RunLog where
  trace : List Phase
  doctypeWarned : Bool := false
deriving DecidableEq, Repr

/-- Substring test, as String.prototype.includes. -/
def hasSub (pat : List Char) : List Char → Bool
  | [] => pat.isEmpty
  | c :: rest => matchesAt false pat (c :: rest) || hasSub pat rest

/-- DOCTYPE presence check of the orchestrator: the text contains the
uppercase or the lowercase DOCTYPE marker. -/
def hasDoctype (html : String) : Bool :=
  hasSub "<!DOCTYPE html".data html.data || hasSub "<!doctype html".data html.data

/-- Outcome of the architect stage: the mock agent in mock mode,
otherwise the model response post-processed by architectFromResponse
(a thrown model call surfaces as the error). -/
def architectOutcome (opts : PipelineOptions) (env : PipelineEnv)
    (input : BusinessInput) : Except String ArchitectOutput :=
  if opts.useMock then .ok (env.mockArchitectFn input)
  else env.architectResponse.map (architectFromResponse env.jsonParse)

/-- Outcome of the builder stage: the mock agent in mock mode, otherwise
the live builder call. -/
def builderOutcome (opts : PipelineOptions) (env : PipelineEnv)
    (spec : ArchitectOutput) : Except String String :=
  if opts.useMock then .ok (env.mockBuilderFn spec) else env.builderLive spec

/-- Outcome of the optional local file write after the builder stage:
no outcome when no output directory is set, otherwise the environment
outcome (a thrown write is caught by the surrounding builder-phase try). -/
def localWriteFailure (opts : PipelineOptions) (env : PipelineEnv) :
    Option String :=
  match opts.outputDir with
  | none => none
  | some _ => env.localSaveError

/-- Embedding of runPipeline: validation, architect, builder (with the
DOCTYPE warning and the optional local save), then upload unless
skipped.  Each phase either advances or returns the tagged error result
of the source, and the log records the phases entered. -/
def runPipeline (raw : RawBusinessInput) (opts : PipelineOptions)
    (env : PipelineEnv) : PipelineResult × RunLog :=
  match validateBusiness env.urlValid env.emailValid raw with
  | .error issues =>
    (createErrorResult env.runId ("Validation failed: " ++ renderIssues issues)
       .validation env.now,
     { trace := [.validation] })
  | .ok input =>
    match architectOutcome opts env input with
    | .error msg =>
      (createErrorResult env.runId ("Architect Agent failed: " ++ msg)
         .architect env.now,
       { trace := [.validation, .architect] })
    | .ok spec =>
      match builderOutcome opts env spec with
      | .error msg =>
        (createErrorResult env.runId ("Builder Agent failed: " ++ msg)
           .builder env.now,
         { trace := [.validation, .architect, .builder] })
      | .ok html =>
        match localWriteFailure opts env with
        | some msg =>
          (createErrorResult env.runId ("Builder Agent failed: " ++ msg)
             .builder env.now,
           { trace := [.validation, .architect, .builder],
             doctypeWarned := !hasDoctype html })
        | none =>
          if opts.skipUpload then
            ({ status := .success, run_id := env.runId,
               business_slug := some (slugify input.business_name),
               html_size_bytes := some html.utf8ByteSize,
               generated_at := some env.now },
             { trace := [.validation, .architect, .builder],
               doctypeWarned := !hasDoctype html })
          else
            match env.uploadOutcome (slugify input.business_name) html env.runId with
            | .error msg =>
              (createErrorResult env.runId ("Upload exception: " ++ msg)
                 .upload env.now,
               { trace := [.validation, .architect, .builder, .upload],
                 doctypeWarned := !hasDoctype html })
            | .ok u =>
              if u.success then
                (createSuccessResult env.runId (slugify input.business_name)
                   (u.storagePath.getD "") (u.publicUrl.getD "") (u.sizeBytes.getD 0)
                   env.now,
                 { trace := [.validation, .architect, .builder, .upload],
                   doctypeWarned := !hasDoctype html })
              else
                (createErrorResult env.runId
                   ("Upload failed: " ++ u.error.getD "undefined") .upload env.now,
                 { trace := [.validation, .architect, .builder, .upload],
                   doctypeWarned := !hasDoctype html })

/-! ### HTTP facade (the Fastify server) -/

/-- Status code chosen by the pipeline endpoint for a pipeline result:
declared pipeline errors answer 400, everything else answers 200 (an
exception escaping the orchestrator answers 500 and is outside this
result mapping). -/
def pipelineHttpCode (r : PipelineResult) : Nat :=
  if r.status = RunStatus.error then 400 else 200

/-- Response body of the manual upload endpoint. -/
structure UploadEndpointBody where
  status : String
  error_message : Option String := none
  expected_path : Option String := none
  run_id : Option String := none
  business_slug : Option String := none
  public_url : Option String := none
  storage_path : Option String := none
  html_size_bytes : Option Nat := none
deriving DecidableEq, Repr

/-- Embedding of the manual upload endpoint: both query parameters must
be present and non-empty (JavaScript truthiness), the conventional local
file must exist (the file system is an oracle from path to content), and
the upload outcome is mapped to 200 or 500.  The joined absolute path is
modelled as slash-joined segments. -/
def uploadEndpoint (fsRead : String → Option String)
    (uploadFn : String → String → String → Except String UploadResult)
    (outputDir : String) (runIdParam slugParam : Option String) :
    Nat × UploadEndpointBody :=
  match runIdParam, slugParam with
  | some runId, some slug =>
    if runId.isEmpty || slug.isEmpty then
      (400, { status := "error",
              error_message := some "Missing required query params: runId and slug" })
    else
      let htmlPath := outputDir ++ "/" ++ slug ++ "/" ++ runId ++ "/index.html"
      match fsRead htmlPath with
      | none =>
        (404, { status := "error",
                error_message := some ("HTML file not found: " ++ htmlPath),
                expected_path := some ("output/" ++ slug ++ "/" ++ runId ++ "/index.html") })
      | some html =>
        match uploadFn slug html runId with
        | .error msg =>
          (500, { status := "error", error_message := some ("Upload failed: " ++ msg) })
        | .ok u =>
          if u.success then
            (200, { status := "success", run_id := some runId,
                    business_slug := some slug, public_url := u.publicUrl,
                    storage_path := u.storagePath, html_size_bytes := u.sizeBytes })
          else
            (500, { status := "error", error_message := u.error })
  | _, _ =>
    (400, { status := "error",
            error_message := some "Missing required query params: runId and slug" })

/-! ### Shared fixtures for concrete evaluations -/

deriving instance DecidableEq for Except

/-- Valid submitted record of the documentation scenario: the Sharma
Optics profile, every required field present. -/
def sampleRaw : RawBusinessInput :=
  { business_name := some "Sharma Optics"
    address := some "12 MG Road, Indore"
    city := some "Indore"
    state := some "Madhya Pradesh"
    owner_name := some "Atin Sharma"
    business_category := some "Optician"
    description := some "Family-run optical store serving Indore for decades." }

/-- The sampleRaw record as the validator normalizes it. -/
def sampleInput : BusinessInput :=
  { business_name := "Sharma Optics"
    address := "12 MG Road, Indore"
    city := "Indore"
    state := "Madhya Pradesh"
    owner_name := some "Atin Sharma"
    business_category := some "Optician"
    description := "Family-run optical store serving Indore for decades." }

/-- Submitted record with every documented required field except
business_category. -/
def noCategoryRaw : RawBusinessInput :=
  { business_name := some "Sharma Optics"
    address := some "12 MG Road, Indore"
    city := some "Indore"
    state := some "Madhya Pradesh"
    description := some "Family-run optical store serving Indore for decades." }

/-- Baseline environment: every external call succeeds. -/
def baseEnv : PipelineEnv :=
  { runId := "run-1"
    now := "2026-01-01T00:00:00.000Z"
    urlValid := fun _ => true
    emailValid := fun _ => true
    architectResponse := .ok "x"
    jsonParse := fun _ => none
    builderLive := fun _ => .ok "<!DOCTYPE html><html></html>"
    mockArchitectFn := fun _ => { website_generation_prompt := "mock architect prompt" }
    mockBuilderFn := fun _ => "<!DOCTYPE html><html><body>Mock</body></html>"
    localSaveError := none
    bucketExists := true
    uploadOutcome := fun _ _ _ =>
      .ok { success := true
            publicUrl := some "https://example.test/storage/pub"
            storagePath := some "sharma-optics/1700000000000/index.html"
            sizeBytes := some 44 } }

/-- Mock mode with upload skipped and no local output directory. -/
def mockSkipOpts : PipelineOptions := { useMock := true, skipUpload := true }

/-- Mock mode with the upload stage enabled. -/
def mockUploadOpts : PipelineOptions := { useMock := true, skipUpload := false }

/-! ### Helper lemmas about the slugify pipeline -/

/-- List xs extends to list ys: ys is xs continued by some tail. -/
def ExtendsTo {α : Type} (xs ys : List α) : Prop := ∃ t, xs ++ t = ys

theorem collapseHyphensAux_sublist (b : Bool) (l : List Char) :
    List.Sublist (collapseHyphensAux b l) l := by
  induction l generalizing b with
  | nil => simp [collapseHyphensAux]
  | cons c rest ih =>
    by_cases hc : c = '-'
    · by_cases hb : b
      · simpa [collapseHyphensAux, hc, hb] using (ih true).cons c
      · simpa [collapseHyphensAux, hc, hb] using (ih true).cons₂ c
    · simpa [collapseHyphensAux, hc] using (ih false).cons₂ c

theorem dropLeadingHyphen_sublist (l : List Char) : List.Sublist (dropLeadingHyphen l) l := by
  match l with
  | [] => simp [dropLeadingHyphen]
  | c :: rest =>
    by_cases hc : c = '-'
    · subst hc
      have hred : dropLeadingHyphen ('-' :: rest) = rest := by simp [dropLeadingHyphen]
      rw [hred]
      exact (List.Sublist.refl rest).cons '-' 
    · simp [dropLeadingHyphen, hc]

theorem dropTrailingHyphen_sublist : ∀ l : List Char, List.Sublist (dropTrailingHyphen l) l
  | [] => by simp [dropTrailingHyphen]
  | [c] => by
    by_cases hc : c = '-' <;> simp [dropTrailingHyphen, hc]
  | c :: d :: rest => by
    have ih := dropTrailingHyphen_sublist (d :: rest)
    simpa [dropTrailingHyphen] using ih.cons₂ c

/-- After collapsing with the previous-was-hyphen flag set, the result
never starts with a hyphen. -/
theorem collapseHyphensAux_true_head (l : List Char) :
    (collapseHyphensAux true l).head? ≠ some '-' := by
  induction l with
  | nil => simp [collapseHyphensAux]
  | cons c rest ih =>
    by_cases hc : c = '-'
    · simpa [collapseHyphensAux, hc] using ih
    · simp [collapseHyphensAux, hc]

/-- Stripping the leading hyphen after collapsing leaves no hyphen at
the head. -/
theorem dropLeadingHyphen_collapse_head (l : List Char) :
    (dropLeadingHyphen (collapseHyphens l)).head? ≠ some '-' := by
  match l with
  | [] => simp [collapseHyphens, collapseHyphensAux, dropLeadingHyphen]
  | c :: rest =>
    by_cases hc : c = '-'
    · have h1 : collapseHyphens (c :: rest) = '-' :: collapseHyphensAux true rest := by
        simp [collapseHyphens, collapseHyphensAux, hc]
      rw [h1]
      have h2 : dropLeadingHyphen ('-' :: collapseHyphensAux true rest) =
          collapseHyphensAux true rest := rfl
      rw [h2]
      exact collapseHyphensAux_true_head rest
    · have h1 : collapseHyphens (c :: rest) = c :: collapseHyphensAux false rest := by
        simp [collapseHyphens, collapseHyphensAux, hc]
      rw [h1]
      simp [dropLeadingHyphen, hc]

/-- Dropping a trailing hyphen cannot create a hyphen at the head. -/
theorem dropTrailingHyphen_head : ∀ l : List Char,
    l.head? ≠ some '-' → (dropTrailingHyphen l).head? ≠ some '-'
  | [], _ => by simp [dropTrailingHyphen]
  | [c], h => by
    by_cases hc : c = '-'
    · simp [dropTrailingHyphen, hc]
    · simp only [dropTrailingHyphen, hc, if_neg]
      exact h
  | c :: d :: rest, h => by
    simpa [dropTrailingHyphen] using h

/-- Truncation cannot create a hyphen at the head. -/
theorem take_head : ∀ (n : Nat) (l : List Char),
    l.head? ≠ some '-' → (l.take n).head? ≠ some '-'
  | 0, _, _ => by simp
  | _ + 1, [], _ => by simp
  | _ + 1, _ :: _, h => by simpa using h

/-! ### Claim C2: slugify output discipline -/

/-- Claim C2 (amended): for every input string and every per-character
lowercasing map, the slug contains only characters from the class
a-z0-9-hyphen (in particular it is lowercase), has no leading hyphen and
is at most 50 characters long.  The no-trailing-hyphen part of the
original claim is dropped: the 50-character truncation runs after the
hyphen stripping and can cut directly behind a hyphen (see the
counterexample). -/
theorem slugify_charset_head_length (lower : Char → Char) (s : String) :
    (∀ c ∈ (slugifyWith lower s).data, slugChar c = true) ∧
    (slugifyWith lower s).data.head? ≠ some '-' ∧
    (slugifyWith lower s).length ≤ 50 := by
  refine ⟨?_, ?_, ?_⟩
  · intro c hc
    have h1 := List.take_sublist 50 (dropTrailingHyphen (dropLeadingHyphen
      (collapseHyphens ((squashWs (trimChars (s.data.map lower))).filter slugChar))))
    have h2 := dropTrailingHyphen_sublist (dropLeadingHyphen
      (collapseHyphens ((squashWs (trimChars (s.data.map lower))).filter slugChar)))
    have h3 := dropLeadingHyphen_sublist
      (collapseHyphens ((squashWs (trimChars (s.data.map lower))).filter slugChar))
    have h4 := collapseHyphensAux_sublist false
      ((squashWs (trimChars (s.data.map lower))).filter slugChar)
    have hmem : c ∈ (squashWs (trimChars (s.data.map lower))).filter slugChar :=
      (((h1.trans h2).trans h3).trans h4).subset hc
    exact (List.mem_filter.mp hmem).2
  · exact take_head 50 _ (dropTrailingHyphen_head _ (dropLeadingHyphen_collapse_head _))
  · show (List.take 50 _).length ≤ 50
    simp [List.length_take]

/-- Input exhibiting the truncation defect: forty-nine letters, a space
and one more letter. -/
def slugTrailingDemo : String := String.mk (List.replicate 49 'a') ++ " b"

/-- Claim C2 (counterexample): the slug of slugTrailingDemo is the
forty-nine letters followed by a hyphen — the truncation to 50
characters reintroduces a trailing hyphen, refuting the original claim
that no slug ends in a hyphen. -/
theorem slugify_trailing_hyphen_cex :
    slugify slugTrailingDemo = String.mk (List.replicate 49 'a' ++ ['-']) ∧
    (slugify slugTrailingDemo).data.getLast? = some '-' := by
  constructor
  · decide
  · decide

/-! ### Claim C3: stage order, first failure, no retry -/

/-- Claim C3: every run enters a prefix of the stage sequence
validation, architect, builder, upload, in that order; no stage is
entered twice (no retry); an error result is tagged with the phase of
the last stage entered (the first failing stage, after which nothing
runs); a success result carries no error phase. -/
theorem runPipeline_stage_discipline (raw : RawBusinessInput)
    (opts : PipelineOptions) (env : PipelineEnv) :
    ExtendsTo (runPipeline raw opts env).2.trace
      [Phase.validation, Phase.architect, Phase.builder, Phase.upload] ∧
    (runPipeline raw opts env).2.trace.Nodup ∧
    ((runPipeline raw opts env).1.status = RunStatus.error →
      (runPipeline raw opts env).1.error_phase =
        (runPipeline raw opts env).2.trace.getLast?) ∧
    ((runPipeline raw opts env).1.status = RunStatus.success →
      (runPipeline raw opts env).1.error_phase = none) := by
  unfold runPipeline
  split
  · exact ⟨⟨[Phase.architect, Phase.builder, Phase.upload], rfl⟩,
      (show ([Phase.validation] : List Phase).Nodup from by decide),
      fun _ => rfl, fun h => nomatch h⟩
  · split
    · exact ⟨⟨[Phase.builder, Phase.upload], rfl⟩,
        (show ([Phase.validation, Phase.architect] : List Phase).Nodup from by decide),
        fun _ => rfl, fun h => nomatch h⟩
    · split
      · exact ⟨⟨[Phase.upload], rfl⟩,
          (show ([Phase.validation, Phase.architect, Phase.builder] : List Phase).Nodup
            from by decide),
          fun _ => rfl, fun h => nomatch h⟩
      · split
        · exact ⟨⟨[Phase.upload], rfl⟩,
            (show ([Phase.validation, Phase.architect, Phase.builder] : List Phase).Nodup
              from by decide),
            fun _ => rfl, fun h => nomatch h⟩
        · split
          · exact ⟨⟨[Phase.upload], rfl⟩,
              (show ([Phase.validation, Phase.architect, Phase.builder] : List Phase).Nodup
                from by decide),
              by intro h; simp at h, fun _ => rfl⟩
          · split
            · exact ⟨⟨[], rfl⟩,
                (show ([Phase.validation, Phase.architect, Phase.builder,
                  Phase.upload] : List Phase).Nodup from by decide),
                fun _ => rfl, fun h => nomatch h⟩
            · split
              · exact ⟨⟨[], rfl⟩,
                  (show ([Phase.validation, Phase.architect, Phase.builder,
                    Phase.upload] : List Phase).Nodup from by decide),
                  by intro h; simp [createSuccessResult] at h, fun _ => rfl⟩
              · exact ⟨⟨[], rfl⟩,
                  (show ([Phase.validation, Phase.architect, Phase.builder,
                    Phase.upload] : List Phase).Nodup from by decide),
                  fun _ => rfl, fun h => nomatch h⟩

/-- Environment in which the storage upload throws. -/
def uploadThrowEnv : PipelineEnv :=
  { baseEnv with uploadOutcome := fun _ _ _ => .error "network down" }

/-- Claim C3 (witness): on the concrete record with a throwing upload,
the error phase of the result names the last stage entered. -/
theorem runPipeline_stage_discipline_witness :
    (runPipeline sampleRaw mockUploadOpts uploadThrowEnv).1.error_phase =
      (runPipeline sampleRaw mockUploadOpts uploadThrowEnv).2.trace.getLast? :=
  (runPipeline_stage_discipline sampleRaw mockUploadOpts uploadThrowEnv).2.2.1
    (by decide)

/-! ### Claim C1: required fields (defect demonstration)

The schema marks business_category optional, although the workflow
documentation and the API examples of the repository list it among the
required fields and show an expected business_category Required issue.
The record below, which omits business_category, passes validation and
the pipeline proceeds into the architect stage. -/

/-- Claim C1 (code defect): a record without business_category yields an
empty issue list, validates successfully, and the run proceeds past
validation into the architect stage and on to success — the validator
never names the missing business_category field. -/
theorem business_category_not_required :
    businessInputIssues (fun _ => true) (fun _ => true) noCategoryRaw = [] ∧
    validateBusiness (fun _ => true) (fun _ => true) noCategoryRaw =
      .ok { business_name := "Sharma Optics", address := "12 MG Road, Indore",
            city := "Indore", state := "Madhya Pradesh",
            description := "Family-run optical store serving Indore for decades." } ∧
    (runPipeline noCategoryRaw mockSkipOpts baseEnv).1.status = RunStatus.success ∧
    Phase.architect ∈ (runPipeline noCategoryRaw mockSkipOpts baseEnv).2.trace := by
  exact ⟨by decide, by decide, by decide, by decide⟩

/-! ### Claim C5: mock run with upload skipped -/

/-- Claim C5: for every record the validator accepts, a mock run with
upload skipped returns a success record whose slug is the slug of the
business name and whose byte size is the UTF-8 byte length of the mock
builder output; the result carries no public URL and no storage path. -/
theorem mock_skip_success (raw : RawBusinessInput) (input : BusinessInput)
    (opts : PipelineOptions) (env : PipelineEnv)
    (hval : validateBusiness env.urlValid env.emailValid raw = Except.ok input)
    (hmock : opts.useMock = true)
    (hskip : opts.skipUpload = true)
    (hsave : localWriteFailure opts env = none) :
    (runPipeline raw opts env).1 =
      { status := RunStatus.success, run_id := env.runId,
        business_slug := some (slugify input.business_name),
        html_size_bytes :=
          some ((env.mockBuilderFn (env.mockArchitectFn input)).utf8ByteSize),
        generated_at := some env.now } := by
  simp [runPipeline, hval, architectOutcome, builderOutcome, hmock, hskip, hsave]

/-- Claim C5 (witness): the Sharma Optics record in mock mode with
upload skipped produces exactly the success record of the claim. -/
theorem mock_skip_success_witness :
    (runPipeline sampleRaw mockSkipOpts baseEnv).1 =
      { status := RunStatus.success, run_id := baseEnv.runId,
        business_slug := some (slugify sampleInput.business_name),
        html_size_bytes :=
          some ((baseEnv.mockBuilderFn (baseEnv.mockArchitectFn sampleInput)).utf8ByteSize),
        generated_at := some baseEnv.now } :=
  mock_skip_success sampleRaw sampleInput mockSkipOpts baseEnv (by decide) rfl rfl rfl

/-! ### Claim C6: upload failure tagging and HTTP mapping -/

/-- Claim C6: when the run reaches the upload stage and the storage call
throws or reports failure with message m, the result is an error tagged
with the upload phase whose message contains m, and the pipeline
endpoint answers it with status 400. -/
theorem upload_failure_tagged (raw : RawBusinessInput) (input : BusinessInput)
    (opts : PipelineOptions) (env : PipelineEnv) (spec : ArchitectOutput)
    (html m : String)
    (hval : validateBusiness env.urlValid env.emailValid raw = Except.ok input)
    (harch : architectOutcome opts env input = Except.ok spec)
    (hbuild : builderOutcome opts env spec = Except.ok html)
    (hsave : localWriteFailure opts env = none)
    (hskip : opts.skipUpload = false)
    (hfail :
      env.uploadOutcome (slugify input.business_name) html env.runId = Except.error m ∨
      ∃ u, env.uploadOutcome (slugify input.business_name) html env.runId = Except.ok u ∧
        u.success = false ∧ u.error = some m) :
    (runPipeline raw opts env).1.status = RunStatus.error ∧
    (runPipeline raw opts env).1.error_phase = some Phase.upload ∧
    (∃ pre post, (runPipeline raw opts env).1.error_message = some (pre ++ m ++ post)) ∧
    pipelineHttpCode (runPipeline raw opts env).1 = 400 := by
  rcases hfail with hthrow | ⟨u, hu, husucc, huerr⟩
  · simp [runPipeline, hval, harch, hbuild, hsave, hskip, hthrow, pipelineHttpCode,
      createErrorResult]
    exact ⟨"Upload exception: ", "", by rw [String.append_empty]⟩
  · simp [runPipeline, hval, harch, hbuild, hsave, hskip, hu, husucc, huerr,
      pipelineHttpCode, createErrorResult]
    exact ⟨"Upload failed: ", "", by rw [String.append_empty]⟩

/-- Upload outcome of a storage service that rejects a duplicate path. -/
def rejectUploadResult : UploadResult :=
  { success := false, error := some "The resource already exists" }

/-- Environment whose storage upload reports failure without throwing. -/
def uploadRejectEnv : PipelineEnv :=
  { baseEnv with uploadOutcome := fun _ _ _ => Except.ok rejectUploadResult }

/-- Claim C6 (witness): the concrete mock run with a rejecting upload is
an upload-tagged error answered with 400. -/
theorem upload_failure_tagged_witness :
    (runPipeline sampleRaw mockUploadOpts uploadRejectEnv).1.status = RunStatus.error ∧
    (runPipeline sampleRaw mockUploadOpts uploadRejectEnv).1.error_phase =
      some Phase.upload ∧
    (∃ pre post, (runPipeline sampleRaw mockUploadOpts uploadRejectEnv).1.error_message =
      some (pre ++ "The resource already exists" ++ post)) ∧
    pipelineHttpCode (runPipeline sampleRaw mockUploadOpts uploadRejectEnv).1 = 400 :=
  upload_failure_tagged sampleRaw sampleInput mockUploadOpts uploadRejectEnv
    (uploadRejectEnv.mockArchitectFn sampleInput)
    (uploadRejectEnv.mockBuilderFn (uploadRejectEnv.mockArchitectFn sampleInput))
    "The resource already exists" (by decide) rfl rfl rfl rfl
    (Or.inr ⟨rejectUploadResult, rfl, rfl, rfl⟩)

/-! ### Claim C7: architect response parsing never fails the stage -/

/-- Claim C7: in live mode, when the model call returns text, the
architect stage strips the markdown fences and parses the result as
JSON; a successful parse becomes the specification, a failed parse is
wrapped as the instruction field of a specification, and in either case
the stage succeeds. -/
theorem architect_parse_fallback (opts : PipelineOptions) (env : PipelineEnv)
    (input : BusinessInput) (raw : String)
    (hlive : opts.useMock = false)
    (hresp : env.architectResponse = Except.ok raw) :
    (∀ spec, env.jsonParse (cleanArchitectText raw) = some spec →
      architectOutcome opts env input = Except.ok spec) ∧
    (env.jsonParse (cleanArchitectText raw) = none →
      architectOutcome opts env input =
        Except.ok { website_generation_prompt := cleanArchitectText raw }) ∧
    ∃ spec, architectOutcome opts env input = Except.ok spec := by
  refine ⟨fun spec hp => ?_, fun hp => ?_, ?_⟩
  · simp [architectOutcome, hlive, hresp, Except.map, architectFromResponse, hp]
  · simp [architectOutcome, hlive, hresp, Except.map, architectFromResponse, hp]
  · cases hp : env.jsonParse (cleanArchitectText raw) with
    | none =>
      exact ⟨{ website_generation_prompt := cleanArchitectText raw },
        by simp [architectOutcome, hlive, hresp, Except.map, architectFromResponse, hp]⟩
    | some spec =>
      exact ⟨spec,
        by simp [architectOutcome, hlive, hresp, Except.map, architectFromResponse, hp]⟩

/-- Claim C7 (witness): with the concrete environment whose JSON parse
always fails, the live architect stage still succeeds and wraps the
cleaned text. -/
theorem architect_parse_fallback_witness :
    architectOutcome { useMock := false } baseEnv sampleInput =
      Except.ok { website_generation_prompt := cleanArchitectText "x" } :=
  (architect_parse_fallback { useMock := false } baseEnv sampleInput "x" rfl rfl).2.1 rfl

/-! ### Claim C8: missing DOCTYPE warns but never fails the run -/

/-- Claim C8: when the builder stage returns markup without a DOCTYPE
marker, the run records the warning, the result is never a builder-phase
error, and the run continues: with upload skipped it is a success, with
upload enabled the upload stage is entered. -/
theorem missing_doctype_soft (raw : RawBusinessInput) (input : BusinessInput)
    (opts : PipelineOptions) (env : PipelineEnv) (spec : ArchitectOutput)
    (html : String)
    (hval : validateBusiness env.urlValid env.emailValid raw = Except.ok input)
    (harch : architectOutcome opts env input = Except.ok spec)
    (hbuild : builderOutcome opts env spec = Except.ok html)
    (hsave : localWriteFailure opts env = none)
    (hdoc : hasDoctype html = false) :
    (runPipeline raw opts env).2.doctypeWarned = true ∧
    (runPipeline raw opts env).1.error_phase ≠ some Phase.builder ∧
    (opts.skipUpload = true → (runPipeline raw opts env).1.status = RunStatus.success) ∧
    (opts.skipUpload = false → Phase.upload ∈ (runPipeline raw opts env).2.trace) := by
  cases hs : opts.skipUpload with
  | true =>
    simp [runPipeline, hval, harch, hbuild, hsave, hs, hdoc]
  | false =>
    cases hu : env.uploadOutcome (slugify input.business_name) html env.runId with
    | error msg =>
      simp [runPipeline, hval, harch, hbuild, hsave, hs, hdoc, hu, createErrorResult]
    | ok u =>
      cases husucc : u.success with
      | true =>
        simp [runPipeline, hval, harch, hbuild, hsave, hs, hdoc, hu, husucc,
          createSuccessResult]
      | false =>
        simp [runPipeline, hval, harch, hbuild, hsave, hs, hdoc, hu, husucc,
          createErrorResult]

/-- Environment whose mock builder omits the DOCTYPE marker. -/
def noDoctypeEnv : PipelineEnv :=
  { baseEnv with mockBuilderFn := fun _ => "<html></html>" }

/-- Claim C8 (witness): the concrete mock run whose builder output lacks
a DOCTYPE records the warning and still succeeds with upload skipped. -/
theorem missing_doctype_soft_witness :
    (runPipeline sampleRaw mockSkipOpts noDoctypeEnv).2.doctypeWarned = true ∧
    (runPipeline sampleRaw mockSkipOpts noDoctypeEnv).1.status = RunStatus.success :=
  ⟨(missing_doctype_soft sampleRaw sampleInput mockSkipOpts noDoctypeEnv
      (noDoctypeEnv.mockArchitectFn sampleInput) "<html></html>"
      (by decide) rfl rfl rfl (by decide)).1,
   (missing_doctype_soft sampleRaw sampleInput mockSkipOpts noDoctypeEnv
      (noDoctypeEnv.mockArchitectFn sampleInput) "<html></html>"
      (by decide) rfl rfl rfl (by decide)).2.2.1 rfl⟩

/-! ### Claim C9: manual upload endpoint, missing local file -/

/-- Claim C9: when both query parameters are supplied and the
conventional local file is absent, the manual upload endpoint answers
404 with an expected_path field echoing the conventional relative path. -/
theorem upload_endpoint_missing_file (fsRead : String → Option String)
    (uploadFn : String → String → String → Except String UploadResult)
    (outputDir runId slug : String)
    (hr : runId.isEmpty = false) (hs : slug.isEmpty = false)
    (hmiss : fsRead (outputDir ++ "/" ++ slug ++ "/" ++ runId ++ "/index.html") = none) :
    uploadEndpoint fsRead uploadFn outputDir (some runId) (some slug) =
      (404,
       { status := "error",
         error_message := some ("HTML file not found: " ++
           (outputDir ++ "/" ++ slug ++ "/" ++ runId ++ "/index.html")),
         expected_path := some ("output/" ++ slug ++ "/" ++ runId ++ "/index.html") }) := by
  simp [uploadEndpoint, hr, hs, hmiss]

/-- Claim C9 (witness): a concrete empty file system makes the endpoint
answer 404 with the conventional expected path. -/
theorem upload_endpoint_missing_file_witness :
    uploadEndpoint (fun _ => none) (fun _ _ _ => Except.error "unused") "srv/output"
        (some "run-9") (some "sharma-optics") =
      (404,
       { status := "error",
         error_message := some ("HTML file not found: " ++
           ("srv/output" ++ "/" ++ "sharma-optics" ++ "/" ++ "run-9" ++ "/index.html")),
         expected_path := some ("output/" ++ "sharma-optics" ++ "/" ++ "run-9" ++ "/index.html") }) :=
  upload_endpoint_missing_file (fun _ => none) (fun _ _ _ => Except.error "unused")
    "srv/output" "run-9" "sharma-optics" rfl rfl rfl

/-! ### Claim C4: storage path convention and overwrite refusal -/

/-- Decimal value of a least-significant-first digit character list
(inverse of digitsRevChars, used to prove injectivity). -/
def decVal : List Char → Nat
  | [] => 0
  | c :: rest => (c.toNat - 48) + 10 * decVal rest

theorem decVal_digitsRevChars (n : Nat) : decVal (digitsRevChars n) = n := by
  induction n using Nat.strong_induction_on with
  | _ n ih =>
    match n with
    | 0 => simp [digitsRevChars, decVal]
    | m + 1 =>
      have hd : (Nat.digitChar ((m + 1) % 10)).toNat - 48 = (m + 1) % 10 := by
        have h10 : (m + 1) % 10 < 10 := Nat.mod_lt _ (by omega)
        have hall : ∀ d, d < 10 → (Nat.digitChar d).toNat - 48 = d := by decide
        exact hall _ h10
      have ih2 := ih ((m + 1) / 10) (Nat.div_lt_self (Nat.succ_pos m) (by omega))
      rw [digitsRevChars]
      simp only [decVal, hd, ih2]
      omega

theorem digitsRevChars_inj {a b : Nat} (h : digitsRevChars a = digitsRevChars b) :
    a = b := by
  have := congrArg decVal h
  rwa [decVal_digitsRevChars, decVal_digitsRevChars] at this

theorem decimalString_inj {a b : Nat} (h : decimalString a = decimalString b) :
    a = b := by
  have hdata := congrArg String.data h
  by_cases ha : a = 0 <;> by_cases hb : b = 0
  · omega
  · exfalso
    simp [decimalString, ha, hb] at hdata
    have hrev : digitsRevChars b = ['0'] := by
      have h2 := congrArg List.reverse hdata
      simp at h2
      first
        | exact h2
        | exact h2.symm
    have := decVal_digitsRevChars b
    rw [hrev] at this
    simp [decVal] at this
    omega
  · exfalso
    simp [decimalString, ha, hb] at hdata
    have hrev : digitsRevChars a = ['0'] := by
      have h2 := congrArg List.reverse hdata
      simp at h2
      exact h2
    have := decVal_digitsRevChars a
    rw [hrev] at this
    simp [decVal] at this
    omega
  · simp [decimalString, ha, hb] at hdata
    exact digitsRevChars_inj hdata

/-- Distinct timestamps yield distinct storage paths for the same slug. -/
theorem storagePath_timestamp_inj (slug : String) {t1 t2 : Nat}
    (h : storagePath slug t1 = storagePath slug t2) : t1 = t2 := by
  apply decimalString_inj
  have hdata := congrArg String.data h
  simp only [storagePath, String.data_append, List.append_assoc] at hdata
  have h1 := List.append_cancel_left hdata
  have h2 := List.append_cancel_left h1
  have h3 := List.append_cancel_right h2
  exact String.ext h3

/-- Claim C4: with the client configured, uploadWebsite writes at the
slug-and-timestamp path when it is free, refuses to write when the path
is occupied (leaving the bucket unchanged), distinct timestamps give
distinct paths for the same slug, and no existing object is ever
removed or replaced. -/
theorem uploadWebsite_no_overwrite (baseUrl : String) (bucket : Bucket)
    (slug html runId : String) (ts t1 t2 : Nat) :
    (bucket.hasPath (storagePath slug ts) = false →
      (uploadWebsite true baseUrl bucket slug html runId ts).1.success = true ∧
      (uploadWebsite true baseUrl bucket slug html runId ts).1.storagePath =
        some (storagePath slug ts) ∧
      (uploadWebsite true baseUrl bucket slug html runId ts).2.entries =
        (storagePath slug ts, html) :: bucket.entries) ∧
    (bucket.hasPath (storagePath slug ts) = true →
      (uploadWebsite true baseUrl bucket slug html runId ts).1.success = false ∧
      (uploadWebsite true baseUrl bucket slug html runId ts).2 = bucket) ∧
    (t1 ≠ t2 → storagePath slug t1 ≠ storagePath slug t2) ∧
    (∀ p c, (p, c) ∈ bucket.entries →
      (p, c) ∈ (uploadWebsite true baseUrl bucket slug html runId ts).2.entries) := by
  refine ⟨?_, ?_, ?_, ?_⟩
  · intro hfree
    simp [uploadWebsite, hfree]
  · intro hdup
    simp [uploadWebsite, hdup]
  · intro hne heq
    exact hne (storagePath_timestamp_inj slug heq)
  · intro p c hmem
    by_cases hp : bucket.hasPath (storagePath slug ts)
    · simpa [uploadWebsite, hp] using hmem
    · simp only [Bool.not_eq_true] at hp
      simp [uploadWebsite, hp]
      exact Or.inr hmem

/-- Claim C4 (witness): on the empty bucket, the concrete upload
succeeds at the conventional path, and two consecutive timestamps give
distinct paths. -/
theorem uploadWebsite_no_overwrite_witness :
    ((uploadWebsite true "https://example.test" ⟨[]⟩ "sharma-optics"
        "<!DOCTYPE html>" "run-1" 1700000000000).1.success = true ∧
      (uploadWebsite true "https://example.test" ⟨[]⟩ "sharma-optics"
        "<!DOCTYPE html>" "run-1" 1700000000000).1.storagePath =
          some (storagePath "sharma-optics" 1700000000000) ∧
      (uploadWebsite true "https://example.test" ⟨[]⟩ "sharma-optics"
        "<!DOCTYPE html>" "run-1" 1700000000000).2.entries =
          (storagePath "sharma-optics" 1700000000000, "<!DOCTYPE html>") :: []) ∧
    storagePath "sharma-optics" 1700000000000 ≠ storagePath "sharma-optics" 1700000000001 :=
  ⟨(uploadWebsite_no_overwrite "https://example.test" ⟨[]⟩ "sharma-optics"
      "<!DOCTYPE html>" "run-1" 1700000000000 1700000000000 1700000000001).1 rfl,
   (uploadWebsite_no_overwrite "https://example.test" ⟨[]⟩ "sharma-optics"
      "<!DOCTYPE html>" "run-1" 1700000000000 1700000000000 1700000000001).2.2.1
     (by omega)⟩

/-! ### Claim C10: a validated record with an empty slug -/

/-- Record whose business name is two punctuation characters: long
enough for the validator, empty after slug derivation. -/
def punctNameRaw : RawBusinessInput :=
  { business_name := some "!!"
    address := some "12 MG Road"
    city := some "Indore"
    state := some "MP"
    description := some "Small shop description padded to twenty chars." }

/-- Claim C10: the punctuation-only business name passes validation, its
slug is empty, and the storage path for every timestamp degenerates to a
path starting with the separator slash: slash, timestamp, slash,
index.html. -/
theorem punct_name_empty_slug :
    validateBusiness (fun _ => true) (fun _ => true) punctNameRaw =
      .ok { business_name := "!!", address := "12 MG Road", city := "Indore",
            state := "MP",
            description := "Small shop description padded to twenty chars." } ∧
    slugify "!!" = "" ∧
    ∀ ts : Nat, storagePath (slugify "!!") ts =
      "/" ++ decimalString ts ++ "/index.html" := by
  refine ⟨by decide, by decide, ?_⟩
  intro ts
  have h : slugify "!!" = "" := by decide
  rw [h]
  unfold storagePath
  rfl

end WebsiteBuilder
